import Mathlib

/-!
Verification development for the EduVote election administration and voting
platform.  The definitions below are a shallow embedding of the code the
claims cite, modelled as the program actually behaves:

* the pure election status derivation (`Database._compute_status_from_dates`
  in `src/Controller/database_service.py` and `_expected_status` in
  `src/Controller/controller_elections.py`);
* the live service layer `Models/model_db.py` — every controller and view
  binds `Database` from `Models.model_db`; `Controller/database_service.py`
  is imported by no module of the repository, so its passive status
  synchronization never runs;
* `Database.cast_ballot_votes` and `Database.get_election_results_by_position`
  from `src/Controller/database_service.py`, including their ever-present
  error paths: `src/Models/model_voting_record.py` and
  `src/Models/model_candidate.py` map no `position_id` column (only the raw
  migrations in `src/Models/base.py` add it to the database tables), so the
  attribute accesses and constructor keywords these functions use raise;
* the index-fixing migration logic of `_run_migrations` in
  `src/Models/base.py`.

Conventions: calendar dates (Python `datetime.date`) are integers (`Day`) —
only their total order is used; `None` is `Option.none`; a session is
explicit state passing, and a path that raises or rolls back returns the
stored state unchanged.  Exception messages interpolated by
`f"...: {str(e)}"` are modelled by fixed strings that name the exception and
the offending attribute; the Python originals contain quote characters that
are not reproduced.
-/

namespace EduVote

/-- Calendar day, ordered like `datetime.date`. -/
abbrev Day := Int

/-- Character-level model of Python `str.lower()` (the status tokens and
column lists compared by the code are ASCII). -/
def lowerString (s : String) : String := ⟨s.data.map Char.toLower⟩

/-- Character-level model of Python `str.upper()`. -/
def upperString (s : String) : String := ⟨s.data.map Char.toUpper⟩

/-- Embedding of `Database._compute_status_from_dates` in
`src/Controller/database_service.py`.  The Python code first normalizes both
dates (`_normalize_date`); here the inputs are already `Option Day`, for which
normalization is the identity.  A Python `date` object is always truthy, so
`if start` reads as `start.isSome`. -/
def computeStatusFromDates (startDate endDate : Option Day) (today : Day) :
    Option String :=
  if (match startDate with | some s => decide (today < s) | none => false) then
    some "upcoming"
  else if (match endDate with | some e => decide (e < today) | none => false) then
    some "finalized"
  else if (match startDate, endDate with
           | some s, some e => decide (s ≤ today) && decide (today ≤ e)
           | _, _ => false) then
    some "active"
  else if (match startDate, endDate with
           | some s, none => decide (s ≤ today)
           | _, _ => false) then
    some "active"
  else if (match startDate, endDate with
           | none, some _ => true
           | _, _ => false) then
    (if (match endDate with | some e => decide (today ≤ e) | none => false) then
       some "active"
     else some "finalized")
  else
    none

/-- Embedding of `_expected_status` in
`src/Controller/controller_elections.py`; its body is the same case analysis
as `Database._compute_status_from_dates` (after `_parse_date`, which is the
identity on already-parsed optional dates). -/
def expectedStatus (startDate endDate : Option Day) (today : Day) :
    Option String :=
  if (match startDate with | some s => decide (today < s) | none => false) then
    some "upcoming"
  else if (match endDate with | some e => decide (e < today) | none => false) then
    some "finalized"
  else if (match startDate, endDate with
           | some s, some e => decide (s ≤ today) && decide (today ≤ e)
           | _, _ => false) then
    some "active"
  else if (match startDate, endDate with
           | some s, none => decide (s ≤ today)
           | _, _ => false) then
    some "active"
  else if (match startDate, endDate with
           | none, some _ => true
           | _, _ => false) then
    (if (match endDate with | some e => decide (today ≤ e) | none => false) then
       some "active"
     else some "finalized")
  else
    none

/-- Modelled from the spec: the `ExpectedStatus(start_date, end_date, today)`
case analysis of section 4.2, written as the prioritized cases of the spec
text (upcoming, finalized, active for both-dates / start-only / end-only, and
no derived opinion when neither date is set). -/
def specExpectedStatus (startDate endDate : Option Day) (today : Day) :
    Option String :=
  match startDate, endDate with
  | some s, some e =>
      if today < s then some "upcoming"
      else if e < today then some "finalized"
      else some "active"
  | some s, none =>
      if today < s then some "upcoming" else some "active"
  | none, some e =>
      if today ≤ e then some "active" else some "finalized"
  | none, none => none

/-- Row of the `elections` table as it exists in storage after the migrations
in `src/Models/base.py` run: the declared columns of the `Election` model plus
the `status_locked TINYINT(1) DEFAULT 0` column added by `_run_migrations`.
The columns `description`, `allowed_grade`, `allowed_section` and `created_at`
are not referenced by any verified claim and are omitted. -/
structure ElectionRow where
  election_id : Nat
  title : String
  status : String
  start_date : Option Day
  end_date : Option Day
  status_locked : Bool
deriving DecidableEq, Repr

/-- Embedding of `Models.model_db.Database.get_all_elections` (lines
284-291): one SELECT over the elections table followed by `to_dict`
projections.  The body contains no status recomputation and issues no write,
so the stored rows pass through unchanged; the first component is the
returned data (the `to_dict` projections, modelled as the rows themselves;
the `order_by created_at` only permutes them and `created_at` is not
modelled), the second is the storage after the call. -/
def modelDbGetAllElections (rows : List ElectionRow) :
    List ElectionRow × List ElectionRow :=
  (rows, rows)

/-- Storage state after `n` successive election reads. -/
def repeatElectionReads : Nat → List ElectionRow → List ElectionRow
  | 0, rows => rows
  | n + 1, rows => repeatElectionReads n (modelDbGetAllElections rows).2

/-- Row of the `voting_records` table after the migrations: the mapped
columns plus the migrated `position_id` column (NULL in every row the
application itself can produce).  `record_id` and `voted_at` are generated
by the store and never read by the verified logic. -/
structure VotingRecordRow where
  user_id : Nat
  election_id : Nat
  position_id : Option Nat
  candidate_id : Option Nat
  status : String
deriving DecidableEq, Repr

/-- Row of the `candidates` table restricted to the mapped columns the
verified logic reads (`src/Models/model_candidate.py`: `candidate_id`,
`election_id`, `full_name`, the legacy `position` string, `vote_count`;
`user_id`, `slogan`, `photo_path`, `created_at` are unused here).  The
migrations add a `position_id` column to the table, but the mapped class has
no such attribute — accessing `Candidate.position_id` raises
AttributeError. -/
structure CandidateRow where
  candidate_id : Nat
  election_id : Nat
  full_name : String
  position : Option String
  vote_count : Option Nat
deriving DecidableEq, Repr

/-- One line item of a ballot submission: the `votes` argument of
`Database.cast_ballot_votes` is a list of dicts with keys `position_id` and
`candidate_id`, both possibly `None`. -/
structure VoteLine where
  position_id : Option Nat
  candidate_id : Option Nat
deriving DecidableEq, Repr

/-- Database state touched by the ballot transaction core. -/
structure BallotDB where
  records : List VotingRecordRow
  candidates : List CandidateRow
deriving DecidableEq, Repr

/-- Message returned by the success path of `cast_ballot_votes`. -/
def successMsg : String := "Ballot submitted successfully!"

/-- Message of the two duplicate-rejection returns in `cast_ballot_votes`
(the pre-check return and the IntegrityError handler).  Both sites are
unreachable: the pre-check raises while building its filter before it can
inspect any record, and no insert ever reaches the commit. -/
def dupMsg : String :=
  "You have already voted for one or more positions in this election."

/-- Model of `f"Failed to submit ballot: {str(e)}"` for the AttributeError
raised by the pre-check at `VotingRecord.position_id`
(`database_service.py:1457`). -/
def ballotPrecheckAttrErr : String :=
  "Failed to submit ballot: type object VotingRecord has no attribute position_id"

/-- Model of `f"Failed to submit ballot: {str(e)}"` for the TypeError raised
by `VotingRecord(position_id=...)` in the insert loop
(`database_service.py:1470`): `position_id` is not a mapped attribute, so the
declarative constructor rejects the keyword for every line item, null
position included. -/
def ballotInsertTypeErr : String :=
  "Failed to submit ballot: position_id is an invalid keyword argument for VotingRecord"

/-- Embedding of `Database.cast_ballot_votes` (lines 1441-1494 of
`src/Controller/database_service.py`) as it actually runs.  The pre-check
loop `continue`s past line items whose `position_id` is None without touching
the ORM; the first line item with a non-null position builds a filter on the
unmapped `VotingRecord.position_id` and raises AttributeError, caught by the
generic `except Exception` handler.  If every line item has a null position
the pre-check completes, and the insert loop's very first
`VotingRecord(position_id=...)` raises TypeError — again the generic
handler.  Both handlers roll back, so the state is unchanged.  Only a call
with no line items at all runs both loops over nothing; its commit is a
no-op and it returns success. -/
def castBallotVotes (db : BallotDB) (u e : Nat) (votes : List VoteLine) :
    Bool × String × BallotDB :=
  let _ := u
  let _ := e
  if votes.any (fun v => v.position_id.isSome) then
    (false, ballotPrecheckAttrErr, db)
  else
    match votes with
    | [] => (true, successMsg, db)
    | _ :: _ => (false, ballotInsertTypeErr, db)

/-- Iterated ballot submissions with a fixed payload: the state after `n`
repeated `cast_ballot_votes` calls by the same voter for the same election. -/
def repeatCast (u e : Nat) (votes : List VoteLine) : Nat → BallotDB → BallotDB
  | 0, db => db
  | n + 1, db => repeatCast u e votes n (castBallotVotes db u e votes).2.2

/-! ## The results aggregator (`Database.get_election_results_by_position`) -/

/-- One row of the `information_schema.statistics` summary inspected by
`_run_migrations` in `src/Models/base.py`: index name, whether it is
non-unique, and its comma-joined column list (read lowercased by `_cols`). -/
structure IndexInfo where
  index_name : String
  non_unique : Bool
  cols : String
deriving DecidableEq, Repr

/-- The drop condition of the migration loop: a unique index, with a
non-empty name other than PRIMARY, on exactly `(user_id, election_id)`. -/
def legacyPairIndex (r : IndexInfo) : Bool :=
  !r.non_unique && r.index_name != "" && upperString r.index_name != "PRIMARY" &&
    lowerString r.cols == "user_id,election_id"

/-- Presence of a unique index on `(user_id, election_id, position_id)`. -/
def hasTripleUnique (idx : List IndexInfo) : Bool :=
  idx.any fun r =>
    !r.non_unique && lowerString r.cols == "user_id,election_id,position_id"

/-- Embedding of the index-fixing tail of `_run_migrations` (lines 122-188 of
`src/Models/base.py`): drop every legacy unique index on
`(user_id, election_id)`, and create the unique index
`uniq_user_election_position` on `(user_id, election_id, position_id)` when
no unique index on those three columns exists yet.  This migration does run
in the live application: `model_db.Database.__init__` calls `init_db`. -/
def ensureVotingUniqueness (idx : List IndexInfo) : List IndexInfo :=
  let kept := idx.filter fun r => !legacyPairIndex r
  if hasTripleUnique idx then kept
  else
    kept ++ [{ index_name := "uniq_user_election_position"
               non_unique := false
               cols := "user_id,election_id,position_id" }]

/-! ## Sample states used by the claim theorems -/

/-- Stored ballot row occupying the (user 1, election 1, position 1) triple
(representable in the table, whose migrated `position_id` column is real even
though the mapped class cannot read or write it). -/
def exRecord : VotingRecordRow :=
  { user_id := 1, election_id := 1, position_id := some 1,
    candidate_id := some 2, status := "cast" }

/-- Ballot store holding one committed row. -/
def exDb : BallotDB := { records := [exRecord], candidates := [] }

/-- Scenario C state: one stored candidate with a cached count of 3. -/
def scenarioCDb : BallotDB :=
  { records := []
    candidates := [{ candidate_id := 7, election_id := 1,
                     full_name := "Carol", position := none,
                     vote_count := some 3 }] }

/-- Scenario C ballot: an abstain for position 1 and candidate 7 for
position 2. -/
def scenarioCVotes : List VoteLine :=
  [⟨some 1, none⟩, ⟨some 2, some 7⟩]

/-- Stored election row whose `status_locked` column is set. -/
def lockedRowW : ElectionRow :=
  { election_id := 1, title := "Student Council", status := "active",
    start_date := none, end_date := some 10, status_locked := true }

lemma hasTripleUnique_ensure (idx : List IndexInfo) :
    hasTripleUnique (ensureVotingUniqueness idx) = true := by
  unfold ensureVotingUniqueness
  by_cases h : hasTripleUnique idx = true
  · rw [if_pos h]
    unfold hasTripleUnique at h ⊢
    rw [List.any_eq_true] at h ⊢
    obtain ⟨r, hmem, hp⟩ := h
    rw [Bool.and_eq_true] at hp
    obtain ⟨hu, hcols⟩ := hp
    refine ⟨r, List.mem_filter.mpr ⟨hmem, ?_⟩,
            by rw [Bool.and_eq_true]; exact ⟨hu, hcols⟩⟩
    have hceq : lowerString r.cols = "user_id,election_id,position_id" :=
      eq_of_beq hcols
    unfold legacyPairIndex
    simp only [hceq]
    simp
  · rw [if_neg h]
    unfold hasTripleUnique
    rw [List.any_eq_true]
    refine ⟨{ index_name := "uniq_user_election_position"
              non_unique := false
              cols := "user_id,election_id,position_id" },
            List.mem_append_right _ (List.mem_singleton.mpr rfl), by decide⟩

lemma castBallotVotes_state_id (db : BallotDB) (u e : Nat)
    (votes : List VoteLine) : (castBallotVotes db u e votes).2.2 = db := by
  unfold castBallotVotes
  by_cases h : (votes.any fun v => v.position_id.isSome) = true
  · simp [h]
  · have h' : (votes.any fun v => v.position_id.isSome) = false := by
      simpa using h
    rcases votes with _ | ⟨v, vs⟩ <;> simp [h']

lemma repeatElectionReads_id :
    ∀ (n : Nat) (rows : List ElectionRow), repeatElectionReads n rows = rows := by
  intro n
  induction n with
  | zero => intro rows; rfl
  | succ k ih => intro rows; exact ih rows

/-! ## Claim theorems -/

/-- C7: both copies of the status derivation — the service method
`_compute_status_from_dates` and the controller helper `_expected_status` —
agree with the case analysis of the spec on every input: upcoming before a
set start date, finalized after a set end date, active inside the range (or
after a lone start date, or up to a lone end date), and no derived opinion
when neither date is set. -/
theorem expectedStatusFollowsSpec :
    ∀ (sd ed : Option Day) (t : Day),
      computeStatusFromDates sd ed t = specExpectedStatus sd ed t ∧
      expectedStatus sd ed t = specExpectedStatus sd ed t := by
  intro sd ed t
  constructor <;>
    (rcases sd with _ | s <;> rcases ed with _ | e
     case' none.none => simp [computeStatusFromDates, expectedStatus, specExpectedStatus]
     case' none.some =>
       by_cases h2 : t ≤ e
       · have h3 : ¬ e < t := not_lt.mpr h2
         simp [computeStatusFromDates, expectedStatus, specExpectedStatus, h2, h3]
       · have h3 : e < t := not_le.mp h2
         simp [computeStatusFromDates, expectedStatus, specExpectedStatus, h2, h3]
     case' some.none =>
       by_cases h1 : t < s
       · simp [computeStatusFromDates, expectedStatus, specExpectedStatus, h1]
       · have hs : s ≤ t := not_lt.mp h1
         simp [computeStatusFromDates, expectedStatus, specExpectedStatus, h1, hs]
     case' some.some =>
       by_cases h1 : t < s
       · simp [computeStatusFromDates, expectedStatus, specExpectedStatus, h1]
       · by_cases h2 : e < t
         · simp [computeStatusFromDates, expectedStatus, specExpectedStatus, h1, h2]
         · have hs : s ≤ t := not_lt.mp h1
           have ht : t ≤ e := not_lt.mp h2
           simp [computeStatusFromDates, expectedStatus, specExpectedStatus,
             h1, h2, hs, ht])

/-- C9 counterexample: a call with an empty line-item list is NOT rejected —
`cast_ballot_votes` runs both loops over nothing, commits, and reports
success. -/
theorem emptyBallotAccepted :
    castBallotVotes { records := [], candidates := [] } 1 1 []
      = (true, successMsg, { records := [], candidates := [] }) := by
  decide

/-- C9 (amended): an empty-ballot call persists nothing — the state is
returned unchanged — but it is answered with the success message rather than
rejected as a validation failure (the empty-ballot guard lives in the UI
layer, which is out of scope). -/
theorem emptyBallotNoOp :
    ∀ (db : BallotDB) (u e : Nat),
      castBallotVotes db u e [] = (true, successMsg, db) := by
  intro db u e
  rfl

/-- C1 (code bug): the migrations do create the storage-level unique index on
(user_id, election_id, position_id), but the ballot-casting call can never
exercise it: every `cast_ballot_votes` call with at least one line item ends
in the generic exception handler (the pre-check reads the unmapped
`VotingRecord.position_id`, the insert loop passes the rejected
`position_id` keyword), returning the generic failure with the state
unchanged.  No call is ever accepted, and no call — not even one referencing
an already-occupied triple — is ever rejected with the duplicate-vote
conflict message. -/
theorem ballotCastingNeverAccepts :
    (∀ idx : List IndexInfo,
       hasTripleUnique (ensureVotingUniqueness idx) = true) ∧
    (∀ (db : BallotDB) (u e : Nat) (v : VoteLine) (vs : List VoteLine),
       (castBallotVotes db u e (v :: vs)).1 = false ∧
       (castBallotVotes db u e (v :: vs)).2.2 = db ∧
       ((castBallotVotes db u e (v :: vs)).2.1 == dupMsg) = false) ∧
    castBallotVotes exDb 1 1 [⟨some 1, some 3⟩]
      = (false, ballotPrecheckAttrErr, exDb) := by
  refine ⟨hasTripleUnique_ensure, ?_, by decide⟩
  intro db u e v vs
  unfold castBallotVotes
  by_cases h : ((v :: vs).any fun x => x.position_id.isSome) = true
  · simp only [h, if_true]
    refine ⟨?_, ?_, ?_⟩ <;> first | rfl | trivial
  · have h' : ((v :: vs).any fun x => x.position_id.isSome) = false := by
      simpa using h
    simp only [h', Bool.false_eq_true, if_false]
    refine ⟨?_, ?_, ?_⟩ <;> first | rfl | trivial

/-- C2 (code bug): all-or-nothing holds only degenerately — no
`cast_ballot_votes` call ever changes the stored state: the sole successful
calls are empty ones, every call with line items fails generically before a
single insert, and a call listing an already-voted position returns that
same generic failure, never the promised already-voted rejection (the
pre-check raises before it can find the existing record). -/
theorem ballotStateNeverChanges :
    (∀ (db : BallotDB) (u e : Nat) (votes : List VoteLine),
       (castBallotVotes db u e votes).2.2 = db) ∧
    (∀ (db : BallotDB) (u e : Nat) (v : VoteLine) (vs : List VoteLine),
       (castBallotVotes db u e (v :: vs)).1 = false) ∧
    castBallotVotes exDb 1 1 [⟨some 1, some 9⟩]
      = (false, ballotPrecheckAttrErr, exDb) := by
  refine ⟨castBallotVotes_state_id, ?_, by decide⟩
  intro db u e v vs
  unfold castBallotVotes
  by_cases h : ((v :: vs).any fun x => x.position_id.isSome) = true
  · simp [h]
  · have h' : ((v :: vs).any fun x => x.position_id.isSome) = false := by
      simpa using h
    simp [h']

/-- C8 (code bug): Scenario C — an abstain for position 1 plus candidate 7
for position 2 — creates no VotingRecord at all: the pre-check reaches the
first non-null-position line, the unmapped attribute access raises, and the
call returns the generic failure with the ballot log empty and candidate 7
cache untouched. -/
theorem scenarioCFailsGenerically :
    castBallotVotes scenarioCDb 1 1 scenarioCVotes
      = (false, ballotPrecheckAttrErr, scenarioCDb) ∧
    (castBallotVotes scenarioCDb 1 1 scenarioCVotes).2.2.records = [] ∧
    (castBallotVotes scenarioCDb 1 1 scenarioCVotes).2.2.candidates
      = scenarioCDb.candidates := by
  decide

/-- C10 counterexample: a call carrying one null-position line item does not
append a VotingRecord — it passes the pre-check untouched but fails in the
insert loop with the generic failure, leaving the store empty. -/
theorem nullPositionCallFails :
    castBallotVotes { records := [], candidates := [] } 1 1 [⟨none, some 7⟩]
      = (false, ballotInsertTypeErr, { records := [], candidates := [] }) := by
  decide

/-- C10 (amended): the duplicate pre-check engages only line items with a
non-null `position_id` — a call whose line items all carry null positions
passes the pre-check without touching the unmapped attribute and reaches the
insert loop, while any non-null line makes the pre-check itself raise — but
the insert loop rejects the `position_id` keyword for every line, so
null-position calls fail with the generic failure (never an already-voted
rejection) and append nothing; repeated calls leave the store unchanged. -/
theorem nullPositionSkipsPrecheckButInsertRaises :
    (∀ (db : BallotDB) (u e : Nat) (v : VoteLine) (vs : List VoteLine),
       (∀ x ∈ v :: vs, x.position_id = none) →
       castBallotVotes db u e (v :: vs) = (false, ballotInsertTypeErr, db)) ∧
    (∀ (db : BallotDB) (u e : Nat) (votes : List VoteLine) (v : VoteLine),
       v ∈ votes → v.position_id.isSome = true →
       castBallotVotes db u e votes = (false, ballotPrecheckAttrErr, db)) ∧
    (∀ (u e : Nat) (votes : List VoteLine) (n : Nat) (db : BallotDB),
       repeatCast u e votes n db = db) := by
  refine ⟨?_, ?_, ?_⟩
  · intro db u e v vs hall
    have h' : ((v :: vs).any fun x => x.position_id.isSome) = false := by
      rw [List.any_eq_false]
      intro x hx
      simp [hall x hx]
    unfold castBallotVotes
    simp [h']
  · intro db u e votes v hmem hsome
    have h : (votes.any fun x => x.position_id.isSome) = true :=
      List.any_eq_true.mpr ⟨v, hmem, hsome⟩
    unfold castBallotVotes
    simp [h]
  · intro u e votes n
    induction n with
    | zero => intro db; rfl
    | succ k ih =>
        intro db
        unfold repeatCast
        rw [castBallotVotes_state_id]
        exact ih db

theorem nullPositionSkipsPrecheckButInsertRaises_witness :
    castBallotVotes { records := [], candidates := [] } 2 1 [⟨none, none⟩]
        = (false, ballotInsertTypeErr,
           { records := [], candidates := [] }) ∧
    castBallotVotes { records := [], candidates := [] } 2 1 [⟨some 3, none⟩]
        = (false, ballotPrecheckAttrErr,
           { records := [], candidates := [] }) :=
  ⟨nullPositionSkipsPrecheckButInsertRaises.1
     { records := [], candidates := [] } 2 1 ⟨none, none⟩ [] (by decide),
   nullPositionSkipsPrecheckButInsertRaises.2.1
     { records := [], candidates := [] } 2 1 [⟨some 3, none⟩]
     ⟨some 3, none⟩ (by decide) rfl⟩

/-- C5: in this source no passive status synchronization ever runs — the
application reads elections through `Models.model_db.Database`, whose
queries recompute nothing and write nothing, and the sync-on-read logic
exists only in `Controller/database_service.py`, a module nothing imports —
so the stored status of every election, and in particular of every election
whose `status_locked` column is true, is unchanged by any number of election
reads, whatever the dates and the current day. -/
theorem lockedStatusSurvivesElectionReads :
    (∀ rows : List ElectionRow, (modelDbGetAllElections rows).2 = rows) ∧
    (∀ (n : Nat) (rows : List ElectionRow),
       repeatElectionReads n rows = rows) ∧
    (∀ (n : Nat) (rows : List ElectionRow) (r : ElectionRow),
       r ∈ rows → r.status_locked = true →
       r ∈ repeatElectionReads n rows) := by
  refine ⟨fun rows => rfl, repeatElectionReads_id, ?_⟩
  intro n rows r hmem _
  rw [repeatElectionReads_id n rows]
  exact hmem

theorem lockedStatusSurvivesElectionReads_witness :
    lockedRowW ∈ repeatElectionReads 3 [lockedRowW] :=
  lockedStatusSurvivesElectionReads.2.2 3 [lockedRowW] lockedRowW
    (by decide) rfl

